import Mathlib

/-!
# Verification of the business-dashboard data-access and API layer

Shallow embedding of `src/app.py` (class `BusinessDashboard` and the Flask
route handlers).  The SQLite tables become Lean lists kept in insertion
order; `AUTOINCREMENT` ids become a `next…Id` counter in the state; SQL
`ORDER BY id DESC` becomes an explicit insertion sort on the key;
`datetime.now()` becomes a `now : Nat` input; a possible `sqlite3.Error`
raised by a write becomes a `dbError : Bool` input to the write operations.
Floats are modelled as rationals (`ℚ`).
-/

namespace Dashboard

/-- A row of the `metrics` table: `name TEXT PRIMARY KEY, value REAL,
updated_at TIMESTAMP`. -/
structure Metric where
  name : String
  value : ℚ
  updated_at : Nat
  deriving Repr, DecidableEq

/-- A row of the `employees` table: `id INTEGER PRIMARY KEY AUTOINCREMENT,
name TEXT, position TEXT, salary REAL, hired_date TIMESTAMP`. -/
structure Employee where
  id : Nat
  name : String
  position : String
  salary : ℚ
  hired_date : Nat
  deriving Repr, DecidableEq

/-- A row of the `sales` table: `id INTEGER PRIMARY KEY AUTOINCREMENT,
product TEXT, amount REAL, customer TEXT, sale_date TIMESTAMP`. -/
structure Sale where
  id : Nat
  product : String
  amount : ℚ
  customer : String
  sale_date : Nat
  deriving Repr, DecidableEq

/-- The SQLite database state: the three tables (rows in insertion order)
plus the next `AUTOINCREMENT` id of the two id-keyed tables. -/
structure DB where
  metrics : List Metric
  employees : List Employee
  sales : List Sale
  nextEmployeeId : Nat
  nextSaleId : Nat
  deriving Repr, DecidableEq

/-- The freshly initialised database (`_init_database` creates empty tables;
SQLite `AUTOINCREMENT` starts at 1). -/
def emptyDB : DB :=
  { metrics := [], employees := [], sales := [], nextEmployeeId := 1, nextSaleId := 1 }

/-- Embeds `INSERT INTO metrics … ON CONFLICT(name) DO UPDATE SET value =
excluded.value, updated_at = excluded.updated_at`: if a row with the same
name exists it is replaced in place, otherwise the new row is appended. -/
def upsertMetric (l : List Metric) (m : Metric) : List Metric :=
  if l.any (fun x => x.name = m.name) then
    l.map (fun x => if x.name = m.name then m else x)
  else
    l ++ [m]

/-- Embeds `BusinessDashboard.add_metric` (src/app.py:64-83).  Python `not name`
on a string is the empty-string test; `isinstance(value, (int, float))` is
always true here since `value : ℚ` is numeric by type.  A `sqlite3.Error`
during the write (modelled by `dbError`) is caught and turned into a
`False` return with no row written. -/
def add_metric (s : DB) (name : String) (value : ℚ) (now : Nat) (dbError : Bool) :
    DB × Bool :=
  if name = "" then (s, false)
  else if dbError then (s, false)
  else ({ s with metrics := upsertMetric s.metrics ⟨name, value, now⟩ }, true)

/-- Embeds `BusinessDashboard.get_metric` (src/app.py:85-92):
`SELECT value FROM metrics WHERE name = ?`, `fetchone`. -/
def get_metric (s : DB) (name : String) : Option ℚ :=
  (s.metrics.find? (fun m => m.name = name)).map (fun m => m.value)

/-- Embeds `BusinessDashboard.get_all_metrics` (src/app.py:94-101): the dict
of name to value as an association list in row order. -/
def get_all_metrics (s : DB) : List (String × ℚ) :=
  s.metrics.map (fun m => (m.name, m.value))

/-- Embeds `BusinessDashboard.add_employee` (src/app.py:103-119).  Validation:
`not name or not position or salary < 0` returns `False`; a storage
error during the insert is caught and returns `False` with no row written;
otherwise the row is inserted with the generated id and current time. -/
def add_employee (s : DB) (name position : String) (salary : ℚ) (now : Nat)
    (dbError : Bool) : DB × Bool :=
  if name = "" ∨ position = "" ∨ salary < 0 then (s, false)
  else if dbError then (s, false)
  else
    ({ s with
        employees := s.employees ++ [⟨s.nextEmployeeId, name, position, salary, now⟩],
        nextEmployeeId := s.nextEmployeeId + 1 }, true)

/-- Insert into a list sorted descending by `key` (keeps the larger keys
first). -/
def insertDesc {α : Type} (key : α → Nat) (a : α) : List α → List α
  | [] => [a]
  | b :: l => if key b ≤ key a then a :: b :: l else b :: insertDesc key a l

/-- SQL `ORDER BY key DESC` as an insertion sort. -/
def orderByDesc {α : Type} (key : α → Nat) (l : List α) : List α :=
  l.foldr (insertDesc key) []

/-- Embeds `BusinessDashboard.get_employees` (src/app.py:121-128):
`SELECT * FROM employees ORDER BY id DESC`. -/
def get_employees (s : DB) : List Employee :=
  orderByDesc (fun e => e.id) s.employees

/-- Embeds `BusinessDashboard.get_employee_count` (src/app.py:130-137):
`SELECT COUNT(*) FROM employees`. -/
def get_employee_count (s : DB) : Nat :=
  s.employees.length

/-- Embeds `BusinessDashboard.add_sale` (src/app.py:139-155).  Validation:
`not product or amount <= 0 or not customer` returns `False`; a storage
error is caught and returns `False`; otherwise the row is inserted. -/
def add_sale (s : DB) (product : String) (amount : ℚ) (customer : String)
    (now : Nat) (dbError : Bool) : DB × Bool :=
  if product = "" ∨ amount ≤ 0 ∨ customer = "" then (s, false)
  else if dbError then (s, false)
  else
    ({ s with
        sales := s.sales ++ [⟨s.nextSaleId, product, amount, customer, now⟩],
        nextSaleId := s.nextSaleId + 1 }, true)

/-- Embeds `BusinessDashboard.get_sales` (src/app.py:157-164):
`SELECT * FROM sales ORDER BY id DESC LIMIT 100`. -/
def get_sales (s : DB) : List Sale :=
  (orderByDesc (fun x => x.id) s.sales).take 100

/-- Embeds `BusinessDashboard.get_total_revenue` (src/app.py:166-173):
`SELECT COALESCE(SUM(amount), 0) FROM sales` (SQL `SUM` of no rows is
`NULL`, coalesced to 0). -/
def get_total_revenue (s : DB) : ℚ :=
  (s.sales.map (fun x => x.amount)).sum

/-- Embeds `BusinessDashboard.get_sales_count` (src/app.py:175-182):
`SELECT COUNT(*) FROM sales`. -/
def get_sales_count (s : DB) : Nat :=
  s.sales.length

/-- SQL `AVG(amount)`: `NULL` on an empty table, otherwise the mean. -/
def sqlAvg (l : List ℚ) : Option ℚ :=
  match l with
  | [] => none
  | _ => some (l.sum / l.length)

/-- Embeds `BusinessDashboard.get_average_sale` (src/app.py:184-191).  The Python
`return result if result else 0.0` maps both the `None` result (empty
table) and a `0.0` mean to `0.0` by falsiness. -/
def get_average_sale (s : DB) : ℚ :=
  match sqlAvg (s.sales.map (fun x => x.amount)) with
  | none => 0
  | some r => if r = 0 then 0 else r

/-- The record returned by `get_dashboard_summary`. -/
structure DashboardSummary where
  total_employees : Nat
  total_sales : Nat
  total_revenue : ℚ
  average_sale : ℚ
  metrics : List (String × ℚ)
  deriving Repr, DecidableEq

/-- Embeds `BusinessDashboard.get_dashboard_summary` (src/app.py:193-201). -/
def get_dashboard_summary (s : DB) : DashboardSummary :=
  { total_employees := get_employee_count s
    total_sales := get_sales_count s
    total_revenue := get_total_revenue s
    average_sale := get_average_sale s
    metrics := get_all_metrics s }

/-! ## HTTP API layer (the Flask route handlers of src/app.py) -/

/-- A Python value found in a parsed JSON request body. -/
inductive JVal where
  | str (s : String)
  | num (q : ℚ)
  | bool (b : Bool)
  | null
  deriving Repr, DecidableEq

/-- Python truthiness of `data.get(field)`: `None` (missing key or JSON
null), `0`, `False` and `""` are falsy. -/
def pyTruthy : Option JVal → Bool
  | none => false
  | some .null => false
  | some (.bool b) => b
  | some (.num q) => q ≠ 0
  | some (.str s) => s ≠ ""

/-- Digits-only accumulator: `some n` when every character is a decimal
digit (the empty string gives `some 0`), `none` otherwise. -/
def decDigits? (s : String) : Option Nat :=
  s.foldl
    (fun acc c =>
      acc.bind (fun n => if c.isDigit then some (10 * n + (c.toNat - 48)) else none))
    (some 0)

/-- Python `float(s)` on a string, modelled for plain decimal literals with
an optional sign and fraction part (exponent, `inf`/`nan` spellings are
outside the inputs the API claims exercise and are mapped to `none`). -/
def pyFloatOfString (s : String) : Option ℚ :=
  let t := s.trim
  let neg := t.startsWith "-"
  let body := if t.startsWith "-" ∨ t.startsWith "+" then t.drop 1 else t
  match body.splitOn "." with
  | [i] =>
      if i = "" then none
      else (decDigits? i).map (fun n => if neg then -(n : ℚ) else (n : ℚ))
  | [i, f] =>
      if i = "" ∧ f = "" then none
      else
        match decDigits? i, decDigits? f with
        | some ni, some nf =>
            let q : ℚ := (ni : ℚ) + (nf : ℚ) / ((10 : ℚ) ^ f.length)
            some (if neg then -q else q)
        | _, _ => none
  | _ => none

/-- Python `float(x)` on the result of `data.get(field)`: `None` and JSON
null raise `TypeError`, non-numeric strings raise `ValueError` (both give
`none`, caught by the handlers); numbers pass through; `bool` is an `int`
subtype in Python. -/
def pyFloat : Option JVal → Option ℚ
  | none => none
  | some .null => none
  | some (.num q) => some q
  | some (.bool b) => some (if b then 1 else 0)
  | some (.str s) => pyFloatOfString s

/-- The text stored when a Python value is bound to a `TEXT`-affinity
SQLite column.  Exact for strings — the only case the API claims exercise;
numeric and boolean bindings are rendered approximately, and `None` cannot
reach a bind site because every handler rejects falsy values first. -/
def sqliteText : Option JVal → String
  | some (.str s) => s
  | some (.num q) => toString q
  | some (.bool b) => if b then "1" else "0"
  | some .null => ""
  | none => ""

/-- A `jsonify(...)` body built by the handlers: `{"message": m}` or
`{"error": e}`. -/
inductive ApiJson where
  | messageObj (msg : String)
  | errorObj (err : String)
  deriving Repr, DecidableEq

/-- The second component of the tuple a POST handler returns.  By Python
operator precedence, `return (jsonify(msg), 201 if success else
(jsonify(err), 400))` is a pair whose second element is either the int
`201` or the nested tuple `(jsonify(err), 400)`. -/
inductive ReturnSecond where
  | statusCode (n : Nat)
  | pair (body : ApiJson) (n : Nat)
  deriving Repr, DecidableEq

/-- What the WSGI layer sends for a handler return value: a JSON body with
a status code, or — when the returned tuple is not `(body, int-status)` or
`(body, headers)` — the `TypeError` Flask raises, surfacing as a 500
Internal Server Error page. -/
inductive HttpResponse where
  | json (body : ApiJson) (status : Nat)
  | serverError
  deriving Repr, DecidableEq

/-- How Flask interprets a 2-tuple handler return value: an `int`
second element is a status code; a nested `(Response, int)` tuple is not a
valid status or headers object and raises `TypeError` → 500. -/
def flaskInterpret : ApiJson × ReturnSecond → HttpResponse
  | (body, .statusCode n) => .json body n
  | (_, .pair _ _) => .serverError

/-- The final `return` expression of the `add_metric` handler
(src/app.py:255-259), parsed with Python precedence: the conditional
`201 if success else (jsonify(...), 400)` is the second tuple element. -/
def addMetricFinalReturn (success : Bool) : ApiJson × ReturnSecond :=
  (ApiJson.messageObj "Metric added successfully",
   if success then ReturnSecond.statusCode 201
   else ReturnSecond.pair (ApiJson.errorObj "Failed to add metric") 400)

/-- The final `return` expression of the `add_employee` handler
(src/app.py:284-288), same shape. -/
def addEmployeeFinalReturn (success : Bool) : ApiJson × ReturnSecond :=
  (ApiJson.messageObj "Employee added successfully",
   if success then ReturnSecond.statusCode 201
   else ReturnSecond.pair (ApiJson.errorObj "Failed to add employee") 400)

/-- The final `return` expression of the `add_sale` handler
(src/app.py:313-317), same shape. -/
def addSaleFinalReturn (success : Bool) : ApiJson × ReturnSecond :=
  (ApiJson.messageObj "Sale added successfully",
   if success then ReturnSecond.statusCode 201
   else ReturnSecond.pair (ApiJson.errorObj "Failed to add sale") 400)

/-- The parsed JSON body of a `POST /api/metrics` request, as the handler
reads it: the results of `data.get` for the name and value fields. -/
structure MetricRequest where
  name : Option JVal
  value : Option JVal
  deriving Repr, DecidableEq

/-- The parsed JSON body of a `POST /api/employees` request. -/
structure EmployeeRequest where
  name : Option JVal
  position : Option JVal
  salary : Option JVal
  deriving Repr, DecidableEq

/-- The parsed JSON body of a `POST /api/sales` request. -/
structure SaleRequest where
  product : Option JVal
  amount : Option JVal
  customer : Option JVal
  deriving Repr, DecidableEq

/-- The `add_metric` route handler (src/app.py:240-259): coerce `value`
with `float` (`TypeError`/`ValueError` → 400 "Invalid input"), reject a
falsy `name` (400 "Metric name required"), call `dashboard.add_metric`,
then the buggy final return. -/
def add_metric_route (s : DB) (req : MetricRequest) (now : Nat) (dbError : Bool) :
    DB × HttpResponse :=
  match pyFloat req.value with
  | none => (s, .json (.errorObj "Invalid input") 400)
  | some value =>
    if ¬ pyTruthy req.name then (s, .json (.errorObj "Metric name required") 400)
    else
      let r := add_metric s (sqliteText req.name) value now dbError
      (r.1, flaskInterpret (addMetricFinalReturn r.2))

/-- The `add_employee` route handler (src/app.py:268-288): coerce `salary`
with `float` (→ 400 "Invalid input" on failure), reject falsy
`name`/`position` or negative salary (400 "Invalid employee data"), call
`dashboard.add_employee`, then the buggy final return. -/
def add_employee_route (s : DB) (req : EmployeeRequest) (now : Nat)
    (dbError : Bool) : DB × HttpResponse :=
  match pyFloat req.salary with
  | none => (s, .json (.errorObj "Invalid input") 400)
  | some salary =>
    if ¬ pyTruthy req.name ∨ ¬ pyTruthy req.position ∨ salary < 0 then
      (s, .json (.errorObj "Invalid employee data") 400)
    else
      let r := add_employee s (sqliteText req.name) (sqliteText req.position)
        salary now dbError
      (r.1, flaskInterpret (addEmployeeFinalReturn r.2))

/-- The `add_sale` route handler (src/app.py:297-317): coerce `amount`
with `float` (→ 400 "Invalid input" on failure), reject falsy
`product`/`customer` or `amount <= 0` (400 "Invalid sale data"), call
`dashboard.add_sale`, then the buggy final return. -/
def add_sale_route (s : DB) (req : SaleRequest) (now : Nat) (dbError : Bool) :
    DB × HttpResponse :=
  match pyFloat req.amount with
  | none => (s, .json (.errorObj "Invalid input") 400)
  | some amount =>
    if ¬ pyTruthy req.product ∨ ¬ pyTruthy req.customer ∨ amount ≤ 0 then
      (s, .json (.errorObj "Invalid sale data") 400)
    else
      let r := add_sale s (sqliteText req.product) amount (sqliteText req.customer)
        now dbError
      (r.1, flaskInterpret (addSaleFinalReturn r.2))

/-- The `get_sales` route handler (src/app.py:290-294): the body is
`{"sales": sales, "count": len(sales)}` where `sales = dashboard.get_sales()`. -/
def get_sales_route (s : DB) : List Sale × Nat :=
  let sales := get_sales s
  (sales, sales.length)

/-! ## Operation sequences and store invariants -/

/-- One write operation of the public interface, together with its
environment inputs (clock reading and whether the storage raises). -/
inductive Op where
  | metric (name : String) (value : ℚ) (now : Nat) (dbError : Bool)
  | employee (name position : String) (salary : ℚ) (now : Nat) (dbError : Bool)
  | sale (product : String) (amount : ℚ) (customer : String) (now : Nat) (dbError : Bool)
  deriving Repr, DecidableEq

/-- The state reached by one write operation (its boolean result dropped). -/
def applyOp (s : DB) : Op → DB
  | .metric name value now dbError => (add_metric s name value now dbError).1
  | .employee name position salary now dbError =>
      (add_employee s name position salary now dbError).1
  | .sale product amount customer now dbError =>
      (add_sale s product amount customer now dbError).1

/-- The state after a sequence of write operations. -/
def runOps (s : DB) (ops : List Op) : DB :=
  ops.foldl applyOp s

/-- Every persisted row satisfies the validation guards: employees have
non-empty name and position and non-negative salary, sales have non-empty
product and customer and positive amount, metrics have a non-empty name. -/
def ValidRows (s : DB) : Prop :=
  (∀ e ∈ s.employees, e.name ≠ "" ∧ e.position ≠ "" ∧ 0 ≤ e.salary) ∧
  (∀ x ∈ s.sales, x.product ≠ "" ∧ x.customer ≠ "" ∧ 0 < x.amount) ∧
  (∀ m ∈ s.metrics, m.name ≠ "")

instance (s : DB) : Decidable (ValidRows s) := by
  unfold ValidRows; infer_instance

/-- Structural well-formedness SQLite maintains for the two
`AUTOINCREMENT` tables: ids strictly increase in insertion order and stay
below the next id to be assigned. -/
def WF (s : DB) : Prop :=
  s.employees.Pairwise (fun a b => a.id < b.id) ∧
  (∀ e ∈ s.employees, e.id < s.nextEmployeeId) ∧
  s.sales.Pairwise (fun a b => a.id < b.id) ∧
  (∀ x ∈ s.sales, x.id < s.nextSaleId)

instance (s : DB) : Decidable (WF s) := by
  unfold WF; infer_instance

/-! ## Helper lemmas -/

theorem names_map_replace (l : List Metric) (m : Metric) :
    (l.map (fun x => if x.name = m.name then m else x)).map (fun x => x.name)
      = l.map (fun x => x.name) := by
  induction l with
  | nil => rfl
  | cons a t ih =>
    simp only [List.map_cons, ih, List.cons.injEq, and_true]
    by_cases h : a.name = m.name <;> simp [h]

theorem nodup_names_upsertMetric {l : List Metric} (m : Metric)
    (h : (l.map (fun x => x.name)).Nodup) :
    ((upsertMetric l m).map (fun x => x.name)).Nodup := by
  unfold upsertMetric
  by_cases hany : l.any (fun x => x.name = m.name)
  · rw [if_pos hany, names_map_replace]; exact h
  · rw [if_neg hany]
    simp only [List.any_eq_true, decide_eq_true_eq, not_exists, not_and] at hany
    simp only [List.map_append, List.map_cons, List.map_nil]
    rw [List.nodup_append]
    refine ⟨h, List.nodup_singleton _, ?_⟩
    intro a ha hb
    simp only [List.mem_singleton] at hb
    simp only [List.mem_map] at ha
    obtain ⟨x, hx, rfl⟩ := ha
    exact hany x hx hb

theorem find?_upsertMetric (l : List Metric) (m : Metric) :
    (upsertMetric l m).find? (fun x => x.name = m.name) = some m := by
  unfold upsertMetric
  by_cases hany : l.any (fun x => x.name = m.name)
  · rw [if_pos hany]
    induction l with
    | nil => simp at hany
    | cons a t ih =>
      simp only [List.map_cons]
      by_cases ha : a.name = m.name
      · rw [if_pos ha, List.find?_cons_of_pos _ (by simp)]
      · simp only [List.any_cons, Bool.or_eq_true, decide_eq_true_eq] at hany
        rcases hany with h | h
        · exact absurd h ha
        · rw [if_neg ha, List.find?_cons_of_neg _ (by simp [ha])]
          exact ih (by simpa using h)
  · rw [if_neg hany]
    simp only [List.any_eq_true, decide_eq_true_eq, not_exists, not_and] at hany
    induction l with
    | nil => simp
    | cons a t ih =>
      have ha : ¬ a.name = m.name := hany a (by simp)
      rw [List.cons_append, List.find?_cons_of_neg _ (by simp [ha])]
      exact ih (fun x hx => hany x (by simp [hx]))

theorem length_filter_of_nodup (l : List Metric) (n : String)
    (hnd : (l.map (fun x => x.name)).Nodup)
    (hany : l.any (fun x => x.name = n)) :
    (l.filter (fun x => x.name = n)).length = 1 := by
  induction l with
  | nil => simp at hany
  | cons a t ih =>
    simp only [List.map_cons, List.nodup_cons] at hnd
    by_cases ha : a.name = n
    · have ht : t.filter (fun x => x.name = n) = [] := by
        rw [List.filter_eq_nil_iff]
        intro x hx
        simp only [decide_eq_true_eq]
        intro hxn
        exact hnd.1 (by rw [List.mem_map]; exact ⟨x, hx, by rw [hxn, ha]⟩)
      rw [List.filter_cons_of_pos (by simp [ha]), ht]
      rfl
    · simp only [List.any_cons, Bool.or_eq_true, decide_eq_true_eq] at hany
      rcases hany with h | h
      · exact absurd h ha
      · rw [List.filter_cons_of_neg (by simp [ha])]
        exact ih hnd.2 (by simpa using h)

theorem filter_names_upsertMetric (l : List Metric) (m : Metric)
    (hnd : (l.map (fun x => x.name)).Nodup) :
    ((upsertMetric l m).filter (fun x => x.name = m.name)).length = 1 := by
  have h1 : ((upsertMetric l m).map (fun x => x.name)).Nodup :=
    nodup_names_upsertMetric m hnd
  have h2 : (upsertMetric l m).any (fun x => x.name = m.name) := by
    unfold upsertMetric
    by_cases hany : l.any (fun x => x.name = m.name)
    · rw [if_pos hany]
      simp only [List.any_eq_true, decide_eq_true_eq] at hany ⊢
      obtain ⟨x, hx, hxn⟩ := hany
      exact ⟨m, List.mem_map.mpr ⟨x, hx, by rw [if_pos hxn]⟩, rfl⟩
    · rw [if_neg hany]
      simp
  exact length_filter_of_nodup _ _ h1 h2

theorem mem_upsertMetric {l : List Metric} {m x : Metric}
    (hx : x ∈ upsertMetric l m) : x ∈ l ∨ x = m := by
  unfold upsertMetric at hx
  by_cases hany : l.any (fun y => y.name = m.name)
  · rw [if_pos hany] at hx
    rw [List.mem_map] at hx
    obtain ⟨y, hy, hyx⟩ := hx
    by_cases h : y.name = m.name
    · right; rw [if_pos h] at hyx; exact hyx.symm
    · left; rw [if_neg h] at hyx; exact hyx ▸ hy
  · rw [if_neg hany] at hx
    rcases List.mem_append.mp hx with h | h
    · exact Or.inl h
    · exact Or.inr (List.mem_singleton.mp h)

theorem length_insertDesc {α : Type} (key : α → Nat) (a : α) (l : List α) :
    (insertDesc key a l).length = l.length + 1 := by
  induction l with
  | nil => rfl
  | cons b t ih =>
    rw [insertDesc]
    by_cases h : key b ≤ key a
    · rw [if_pos h]; rfl
    · rw [if_neg h]; simp [ih]

theorem length_orderByDesc {α : Type} (key : α → Nat) (l : List α) :
    (orderByDesc key l).length = l.length := by
  induction l with
  | nil => rfl
  | cons a t ih =>
    show (insertDesc key a (orderByDesc key t)).length = t.length + 1
    rw [length_insertDesc, ih]

theorem insertDesc_eq_append {α : Type} (key : α → Nat) (a : α) (l : List α)
    (h : ∀ b ∈ l, key a < key b) : insertDesc key a l = l ++ [a] := by
  induction l with
  | nil => rfl
  | cons b t ih =>
    have hb := h b (by simp)
    rw [insertDesc, if_neg (by omega)]
    rw [ih (fun x hx => h x (by simp [hx]))]
    rfl

theorem orderByDesc_of_increasing {α : Type} (key : α → Nat) (l : List α)
    (h : l.Pairwise (fun x y => key x < key y)) :
    orderByDesc key l = l.reverse := by
  induction l with
  | nil => rfl
  | cons a t ih =>
    rw [List.pairwise_cons] at h
    show insertDesc key a (orderByDesc key t) = (a :: t).reverse
    rw [ih h.2, insertDesc_eq_append]
    · simp
    · intro b hb
      exact h.1 b (by rwa [List.mem_reverse] at hb)

theorem add_employee_success (s : DB) (name position : String) (salary : ℚ)
    (now : Nat) (hcond : ¬ (name = "" ∨ position = "" ∨ salary < 0)) :
    add_employee s name position salary now false
      = ({ s with
            employees :=
              s.employees ++ [⟨s.nextEmployeeId, name, position, salary, now⟩],
            nextEmployeeId := s.nextEmployeeId + 1 }, true) := by
  unfold add_employee
  rw [if_neg hcond]
  rfl

theorem metrics_add_metric (s : DB) (n : String) (v : ℚ) (t : Nat)
    (hn : n ≠ "") :
    (add_metric s n v t false).1.metrics = upsertMetric s.metrics ⟨n, v, t⟩ := by
  unfold add_metric
  rw [if_neg hn]
  rfl

/-- Demo state with a single persisted sale of amount 500, used to
instantiate the universally quantified theorems below. -/
def oneSaleDB : DB :=
  { metrics := [], employees := [],
    sales := [⟨1, "Service A", 500, "Corp Ltd", 0⟩],
    nextEmployeeId := 1, nextSaleId := 2 }

/-- Demo state with 101 persisted sales, exceeding the LIMIT 100 cap. -/
def manySalesDB : DB :=
  { metrics := [], employees := [],
    sales := (List.range 101).map (fun i => ⟨i + 1, "P", 1, "C", 0⟩),
    nextEmployeeId := 1, nextSaleId := 102 }

/-! ## Claim theorems -/

/-- C1: the spec says a storage-layer failure during a POST write is caught
and reported as a 400 response with body error "Failed to add X".  The
code violates this: by Python operator precedence the handlers final
return is a pair whose second component, on failure, is the nested tuple
of the error body and 400 — a return value Flask rejects with a
`TypeError`, surfacing as a 500 Internal Server Error.  Evaluated here on
the concrete failing request POST /api/metrics with name cpu and value 5
while the storage write raises. -/
theorem add_metric_storage_failure_is_server_error :
    add_metric_route emptyDB ⟨some (JVal.str "cpu"), some (JVal.num 5)⟩ 0 true
      = (emptyDB, HttpResponse.serverError) ∧
    addMetricFinalReturn false
      = (ApiJson.messageObj "Metric added successfully",
         ReturnSecond.pair (ApiJson.errorObj "Failed to add metric") 400) ∧
    flaskInterpret (addEmployeeFinalReturn false) = HttpResponse.serverError ∧
    flaskInterpret (addSaleFinalReturn false) = HttpResponse.serverError := by
  refine ⟨by decide, rfl, rfl, rfl⟩

/-- C2: for every product, customer and amount, if the amount is
non-positive or the product or customer is the empty string, `add_sale`
returns false and the whole state — in particular the sales table — is
unchanged. -/
theorem add_sale_invalid_input_rejected (s : DB) (product customer : String)
    (amount : ℚ) (now : Nat) (dbError : Bool)
    (h : amount ≤ 0 ∨ product = "" ∨ customer = "") :
    add_sale s product amount customer now dbError = (s, false) := by
  have hc : product = "" ∨ amount ≤ 0 ∨ customer = "" := by tauto
  unfold add_sale
  rw [if_pos hc]

theorem add_sale_invalid_input_rejected_witness :
    add_sale emptyDB "Widget" 0 "Acme" 7 false = (emptyDB, false) :=
  add_sale_invalid_input_rejected emptyDB "Widget" "Acme" 0 7 false
    (Or.inl (le_refl 0))

/-- C6: on a state with no sales `get_average_sale` returns exactly 0, and
on a state with at least one sale it returns the mean of all sale
amounts. -/
theorem get_average_sale_spec (s : DB) :
    (s.sales = [] → get_average_sale s = 0) ∧
    (s.sales ≠ [] →
      get_average_sale s
        = (s.sales.map (fun x => x.amount)).sum / (s.sales.length : ℚ)) := by
  constructor
  · intro h
    simp [get_average_sale, sqlAvg, h]
  · intro h
    obtain ⟨a, t, hs⟩ := List.exists_cons_of_ne_nil h
    unfold get_average_sale sqlAvg
    rw [hs]
    simp only [List.map_cons, List.length_cons, List.length_map]
    by_cases hz : (a.amount :: t.map (fun x => x.amount)).sum / ((t.length + 1 : Nat) : ℚ) = 0
    · simp only [hz]
      rfl
    · simp only [hz]
      simp

theorem get_average_sale_spec_witness :
    get_average_sale oneSaleDB = 500 := by
  have h := (get_average_sale_spec oneSaleDB).2 (by decide)
  rw [h]
  norm_num [oneSaleDB]

/-- C7: the dashboard summary composes the individual getters: its fields
equal `get_employee_count`, `get_sales_count`, `get_total_revenue` (which
is the sum of all sale amounts, hence 0 when there are none),
`get_average_sale` and `get_all_metrics` on the same state. -/
theorem get_dashboard_summary_composes (s : DB) :
    (get_dashboard_summary s).total_employees = get_employee_count s ∧
    (get_dashboard_summary s).total_sales = get_sales_count s ∧
    (get_dashboard_summary s).total_revenue = get_total_revenue s ∧
    (get_dashboard_summary s).total_revenue = (s.sales.map (fun x => x.amount)).sum ∧
    (get_dashboard_summary s).average_sale = get_average_sale s ∧
    (get_dashboard_summary s).metrics = get_all_metrics s :=
  ⟨rfl, rfl, rfl, rfl, rfl, rfl⟩

/-- C8: a POST /api/employees request whose salary field is missing or
cannot be coerced by Python float raises inside the try block, and the
handler answers 400 with body error "Invalid input" leaving the store
untouched. -/
theorem add_employee_route_invalid_salary (s : DB) (req : EmployeeRequest)
    (now : Nat) (dbError : Bool) (h : pyFloat req.salary = none) :
    add_employee_route s req now dbError
      = (s, HttpResponse.json (ApiJson.errorObj "Invalid input") 400) := by
  unfold add_employee_route
  rw [h]

theorem add_employee_route_invalid_salary_witness :
    add_employee_route emptyDB
      ⟨some (JVal.str "Alice"), some (JVal.str "Engineer"), none⟩ 0 false
      = (emptyDB, HttpResponse.json (ApiJson.errorObj "Invalid input") 400) :=
  add_employee_route_invalid_salary emptyDB
    ⟨some (JVal.str "Alice"), some (JVal.str "Engineer"), none⟩ 0 false rfl

theorem metrics_add_employee (s : DB) (n p : String) (sal : ℚ) (t : Nat)
    (e : Bool) : (add_employee s n p sal t e).1.metrics = s.metrics := by
  unfold add_employee
  by_cases h : n = "" ∨ p = "" ∨ sal < 0
  · rw [if_pos h]
  · rw [if_neg h]
    cases e <;> rfl

theorem metrics_add_sale (s : DB) (p : String) (a : ℚ) (c : String) (t : Nat)
    (e : Bool) : (add_sale s p a c t e).1.metrics = s.metrics := by
  unfold add_sale
  by_cases h : p = "" ∨ a ≤ 0 ∨ c = ""
  · rw [if_pos h]
  · rw [if_neg h]
    cases e <;> rfl

theorem nodup_names_add_metric (s : DB) (n : String) (v : ℚ) (t : Nat)
    (e : Bool) (hnd : (s.metrics.map (fun m => m.name)).Nodup) :
    (((add_metric s n v t e).1.metrics.map (fun m => m.name)).Nodup) := by
  unfold add_metric
  by_cases h1 : n = ""
  · rw [if_pos h1]; exact hnd
  · rw [if_neg h1]
    cases e
    · exact nodup_names_upsertMetric _ hnd
    · exact hnd

/-- C3: at most one metrics row per name is preserved by every write
operation, and adding the same non-empty name twice with two different
values leaves exactly one row for that name, holding the second value,
which `get_metric` then returns. -/
theorem metric_upsert_one_row_latest (s : DB) (name : String) (v1 v2 : ℚ)
    (t1 t2 : Nat) (op : Op)
    (hnd : (s.metrics.map (fun m => m.name)).Nodup)
    (hname : name ≠ "") (_hv : v1 ≠ v2) :
    (((applyOp s op).metrics.map (fun m => m.name)).Nodup) ∧
    (((add_metric (add_metric s name v1 t1 false).1 name v2 t2 false).1.metrics.filter
        (fun m => m.name = name)).length = 1) ∧
    (get_metric (add_metric (add_metric s name v1 t1 false).1 name v2 t2 false).1 name
      = some v2) ∧
    (((add_metric (add_metric s name v1 t1 false).1 name v2 t2 false).1.metrics.map
        (fun m => m.name)).Nodup) := by
  have hm1 : (add_metric s name v1 t1 false).1.metrics
      = upsertMetric s.metrics ⟨name, v1, t1⟩ := metrics_add_metric s name v1 t1 hname
  have hm2 : (add_metric (add_metric s name v1 t1 false).1 name v2 t2 false).1.metrics
      = upsertMetric (upsertMetric s.metrics ⟨name, v1, t1⟩) ⟨name, v2, t2⟩ := by
    rw [metrics_add_metric _ name v2 t2 hname, hm1]
  have hnd1 : ((upsertMetric s.metrics ⟨name, v1, t1⟩).map (fun m => m.name)).Nodup :=
    nodup_names_upsertMetric _ hnd
  refine ⟨?_, ?_, ?_, ?_⟩
  · cases op with
    | metric n v t e => exact nodup_names_add_metric s n v t e hnd
    | employee n p sal t e =>
      show (((add_employee s n p sal t e).1.metrics.map (fun m => m.name)).Nodup)
      rw [metrics_add_employee]
      exact hnd
    | sale p a c t e =>
      show (((add_sale s p a c t e).1.metrics.map (fun m => m.name)).Nodup)
      rw [metrics_add_sale]
      exact hnd
  · rw [hm2]
    exact filter_names_upsertMetric _ ⟨name, v2, t2⟩ hnd1
  · unfold get_metric
    rw [hm2]
    have hf : (upsertMetric (upsertMetric s.metrics ⟨name, v1, t1⟩)
        ⟨name, v2, t2⟩).find? (fun x => x.name = name) = some ⟨name, v2, t2⟩ :=
      find?_upsertMetric _ ⟨name, v2, t2⟩
    rw [hf]
    rfl
  · rw [hm2]
    exact nodup_names_upsertMetric _ hnd1

theorem metric_upsert_one_row_latest_witness :
    (((applyOp emptyDB (Op.sale "A" 3 "B" 0 false)).metrics.map
        (fun m => m.name)).Nodup) ∧
    (((add_metric (add_metric emptyDB "growth" 1 0 false).1 "growth" 2 1
        false).1.metrics.filter (fun m => m.name = "growth")).length = 1) ∧
    (get_metric (add_metric (add_metric emptyDB "growth" 1 0 false).1 "growth" 2 1
        false).1 "growth" = some 2) ∧
    (((add_metric (add_metric emptyDB "growth" 1 0 false).1 "growth" 2 1
        false).1.metrics.map (fun m => m.name)).Nodup) :=
  metric_upsert_one_row_latest emptyDB "growth" 1 2 0 1 (Op.sale "A" 3 "B" 0 false)
    (by decide) (by decide) (by decide)

/-- C4: for every well-formed store state, `get_sales` returns at most 100
rows, and the rows returned are the most recently inserted 100 in
descending id order — the reversal of the insertion-ordered table,
truncated to 100. -/
theorem get_sales_capped_and_ordered (s : DB) (hwf : WF s) :
    (get_sales s).length ≤ 100 ∧ get_sales s = s.sales.reverse.take 100 := by
  constructor
  · unfold get_sales
    rw [List.length_take]
    exact min_le_left _ _
  · unfold get_sales
    rw [orderByDesc_of_increasing _ _ hwf.2.2.1]

theorem get_sales_capped_and_ordered_witness :
    (get_sales oneSaleDB).length ≤ 100 ∧
    get_sales oneSaleDB = oneSaleDB.sales.reverse.take 100 :=
  get_sales_capped_and_ordered oneSaleDB (by decide)

/-- C5: for every well-formed state and valid employee input (non-empty
name and position, non-negative salary), `add_employee` returns true and
the newly inserted employee is the first element `get_employees` then
returns. -/
theorem add_employee_valid_first (s : DB) (name position : String) (salary : ℚ)
    (now : Nat) (hwf : WF s) (hn : name ≠ "") (hp : position ≠ "")
    (hs : 0 ≤ salary) :
    (add_employee s name position salary now false).2 = true ∧
    (get_employees (add_employee s name position salary now false).1).head?
      = some ⟨s.nextEmployeeId, name, position, salary, now⟩ := by
  have hcond : ¬ (name = "" ∨ position = "" ∨ salary < 0) := by
    push_neg
    exact ⟨hn, hp, hs⟩
  rw [add_employee_success s name position salary now hcond]
  refine ⟨rfl, ?_⟩
  unfold get_employees
  rw [orderByDesc_of_increasing]
  · rw [List.reverse_append]
    rfl
  · rw [List.pairwise_append]
    refine ⟨hwf.1, List.pairwise_singleton _ _, ?_⟩
    intro a ha b hb
    rw [List.mem_singleton] at hb
    subst hb
    exact hwf.2.1 a ha

theorem add_employee_valid_first_witness :
    (add_employee emptyDB "Alice" "Engineer" 90000 0 false).2 = true ∧
    (get_employees (add_employee emptyDB "Alice" "Engineer" 90000 0 false).1).head?
      = some ⟨emptyDB.nextEmployeeId, "Alice", "Engineer", 90000, 0⟩ :=
  add_employee_valid_first emptyDB "Alice" "Engineer" 90000 0
    (by decide) (by decide) (by decide) (by decide)

/-- C9: the count that GET /api/sales reports always equals the length of
the capped list in the same response, and once the store holds more than
100 sales the count is 100 and thus differs from the total row count
`get_sales_count`. -/
theorem sales_route_count_matches (s : DB) :
    (get_sales_route s).2 = (get_sales_route s).1.length ∧
    (100 < s.sales.length →
      (get_sales_route s).2 = 100 ∧ (get_sales_route s).2 ≠ get_sales_count s) := by
  refine ⟨rfl, ?_⟩
  intro h
  have hlen : (get_sales_route s).2 = 100 := by
    show (get_sales s).length = 100
    unfold get_sales
    rw [List.length_take, length_orderByDesc]
    omega
  refine ⟨hlen, ?_⟩
  rw [hlen]
  show (100 : Nat) ≠ s.sales.length
  omega

theorem sales_route_count_matches_witness :
    (get_sales_route manySalesDB).2 = (get_sales_route manySalesDB).1.length ∧
    (get_sales_route manySalesDB).2 = 100 ∧
    (get_sales_route manySalesDB).2 ≠ get_sales_count manySalesDB := by
  have h := sales_route_count_matches manySalesDB
  have hlen : 100 < manySalesDB.sales.length := by
    show 100 < ((List.range 101).map _).length
    rw [List.length_map, List.length_range]
    omega
  exact ⟨h.1, h.2 hlen⟩

theorem validRows_applyOp (s : DB) (op : Op) (h : ValidRows s) :
    ValidRows (applyOp s op) := by
  cases op with
  | metric n v t e =>
    show ValidRows (add_metric s n v t e).1
    unfold add_metric
    by_cases h1 : n = ""
    · rw [if_pos h1]; exact h
    · rw [if_neg h1]
      cases e
      · refine ⟨h.1, h.2.1, ?_⟩
        intro m hm
        rcases mem_upsertMetric hm with hmem | rfl
        · exact h.2.2 m hmem
        · exact h1
      · exact h
  | employee n p sal t e =>
    show ValidRows (add_employee s n p sal t e).1
    unfold add_employee
    by_cases h1 : n = "" ∨ p = "" ∨ sal < 0
    · rw [if_pos h1]; exact h
    · rw [if_neg h1]
      cases e
      · push_neg at h1
        refine ⟨?_, h.2.1, h.2.2⟩
        intro x hx
        rcases List.mem_append.mp hx with hmem | hnew
        · exact h.1 x hmem
        · rw [List.mem_singleton] at hnew
          subst hnew
          exact ⟨h1.1, h1.2.1, h1.2.2⟩
      · exact h
  | sale p a c t e =>
    show ValidRows (add_sale s p a c t e).1
    unfold add_sale
    by_cases h1 : p = "" ∨ a ≤ 0 ∨ c = ""
    · rw [if_pos h1]; exact h
    · rw [if_neg h1]
      cases e
      · push_neg at h1
        refine ⟨h.1, ?_, h.2.2⟩
        intro x hx
        rcases List.mem_append.mp hx with hmem | hnew
        · exact h.2.1 x hmem
        · rw [List.mem_singleton] at hnew
          subst hnew
          exact ⟨h1.1, h1.2.2, h1.2.1⟩
      · exact h

theorem validRows_runOps (ops : List Op) (s : DB) (h : ValidRows s) :
    ValidRows (runOps s ops) := by
  induction ops generalizing s with
  | nil => exact h
  | cons op rest ih => exact ih _ (validRows_applyOp s op h)

/-- C10: starting from the empty store, after any sequence of write
operations every persisted employee row has a non-empty name and position
and a non-negative salary, every sale row has a non-empty product and
customer and a positive amount, and every metric row has a non-empty
name. -/
theorem runOps_from_empty_validRows (ops : List Op) :
    ValidRows (runOps emptyDB ops) :=
  validRows_runOps ops emptyDB (by decide)

end Dashboard
